import Mathlib

/-!
Verification of the medallion travel pipeline (bronze/silver/gold SQL
notebooks plus the data-quality auditor) against its specification.

The SQL transforms are embedded shallowly: nullable columns become
`Option` values, SQL three-valued boolean logic becomes `SqlBool`,
aggregation over a group becomes a fold over the group's row list, and
the data-quality notebook becomes an explicit checklist runner over an
environment describing the readable tables.
-/

/-! ## SQL value semantics -/

/-- Three-valued SQL booleans: a comparison with NULL is `unknown`. -/
inductive SqlBool where
  | tt
  | ff
  | unknown
  deriving DecidableEq, Repr

/-- SQL OR over three-valued booleans. -/
def sqlOr : SqlBool → SqlBool → SqlBool
  | .tt, _ => .tt
  | _, .tt => .tt
  | .ff, .ff => .ff
  | _, _ => .unknown

/-- Lift a comparison on values to nullable operands: NULL on either side
gives `unknown`. -/
def liftCmp {α : Type} (f : α → α → Bool) : Option α → Option α → SqlBool
  | some a, some b => if f a b then .tt else .ff
  | _, _ => .unknown

/-- SQL `<` on nullable rationals. -/
def sqlLt (a b : Option ℚ) : SqlBool := liftCmp (fun x y => decide (x < y)) a b

/-- SQL `>` on nullable rationals. -/
def sqlGt (a b : Option ℚ) : SqlBool := liftCmp (fun x y => decide (x > y)) a b

/-- SQL `>=` on nullable rationals. -/
def sqlGe (a b : Option ℚ) : SqlBool := liftCmp (fun x y => decide (x ≥ y)) a b

/-- SQL `>=` on nullable integers. -/
def sqlGeInt (a b : Option ℤ) : SqlBool := liftCmp (fun x y => decide (x ≥ y)) a b

/-- SQL `IS NULL`: always two-valued. -/
def sqlIsNull {α : Type} : Option α → SqlBool
  | none => .tt
  | some _ => .ff

/-- A boolean column used directly as a condition: NULL is `unknown`. -/
def sqlOfBool : Option Bool → SqlBool
  | none => .unknown
  | some true => .tt
  | some false => .ff

/-- SQL `x IN (list)` for a nullable integer operand. -/
def sqlIn (a : Option ℤ) (l : List ℤ) : SqlBool :=
  match a with
  | none => .unknown
  | some v => if v ∈ l then .tt else .ff

/-- SQL `CASE WHEN c THEN t ELSE e END`: the THEN branch is taken only
when the condition is definitely true; `ff` and `unknown` both fall to
the ELSE branch. -/
def caseWhen {α : Type} (c : SqlBool) (t e : α) : α :=
  if c = .tt then t else e

/-- Spark `ROUND(q, scale)` with HALF_UP semantics (ties away from zero). -/
def roundTo (scale : Nat) (q : ℚ) : ℚ :=
  let m : ℚ := (10 : ℚ) ^ scale
  if q ≥ 0 then ((Rat.floor (q * m + 1/2) : ℤ) : ℚ) / m
  else -(((Rat.floor (-q * m + 1/2) : ℤ) : ℚ) / m)

/-- `ROUND` applied to a nullable value: NULL stays NULL. -/
def roundOpt (scale : Nat) (q : Option ℚ) : Option ℚ := q.map (roundTo scale)

/-- SQL `COALESCE(x, d)`. -/
def coalesce {α : Type} (x : Option α) (d : α) : α := x.getD d

/-! ## Raw (bronze) records

Bronze ingestion copies the source columns verbatim and adds lineage
metadata; only the business columns reach the silver transforms, so the
raw record types carry exactly those. Timestamps are modelled as their
extractable calendar components, which is all the transforms inspect. -/

/-- The calendar components the silver layer extracts from a timestamp. -/
structure SqlTimestamp where
  year : ℤ
  month : ℤ
  dayOfWeek : ℤ
  hour : ℤ
  deriving DecidableEq, Repr

/-- A bronze travel-purchase row (nullable business columns). -/
structure RawPurchase where
  id : Option ℕ
  ts : Option SqlTimestamp
  user_id : Option ℕ
  destination_id : Option ℕ
  clicked : Option Bool
  purchased : Option Bool
  booking_date : Option ℤ
  price : Option ℚ
  user_latitude : Option ℚ
  user_longitude : Option ℚ
  deriving DecidableEq, Repr

/-- A bronze user-features row. -/
structure RawUserFeatures where
  user_id : Option ℕ
  ts : Option SqlTimestamp
  mean_price_7d : Option ℚ
  last_6m_purchases : Option ℤ
  user_latitude : Option ℚ
  user_longitude : Option ℚ
  deriving DecidableEq, Repr

/-- A bronze destination row. -/
structure RawDestination where
  destination_id : Option ℕ
  destination_name : Option String
  dest_latitude : Option ℚ
  dest_longitude : Option ℚ
  deriving DecidableEq, Repr

/-! ## Silver layer: cleaning and validation -/

/-- A `silver_travel_purchases` row. -/
structure SilverPurchase where
  transaction_id : Option ℕ
  transaction_timestamp : Option SqlTimestamp
  user_id : Option ℕ
  destination_id : Option ℕ
  clicked : Bool
  purchased : Bool
  booking_date : Option ℤ
  price_usd : Option ℚ
  user_latitude : Option ℚ
  user_longitude : Option ℚ
  price_flag : Bool
  location_flag : Bool
  transaction_year : Option ℤ
  transaction_month : Option ℤ
  transaction_day_of_week : Option ℤ
  transaction_hour : Option ℤ
  day_type : String
  deriving DecidableEq, Repr

/-- The SELECT list of the `cleaned_data` CTE of `silver_travel_purchases`,
applied to one bronze row (`price_flag` embeds the `_price_invalid`
column and `location_flag` the `_location_invalid` column). -/
def cleanPurchase (r : RawPurchase) : SilverPurchase :=
  { transaction_id := r.id
  , transaction_timestamp := r.ts
  , user_id := r.user_id
  , destination_id := r.destination_id
  , clicked := coalesce r.clicked false
  , purchased := coalesce r.purchased false
  , booking_date := r.booking_date
  , price_usd :=
      caseWhen (sqlOr (sqlIsNull r.price) (sqlLt r.price (some 0))) none
        (caseWhen (sqlGt r.price (some 50000)) none
          (roundOpt 2 r.price))
  , user_latitude := r.user_latitude
  , user_longitude := r.user_longitude
  , price_flag :=
      caseWhen
        (sqlOr (sqlIsNull r.price)
          (sqlOr (sqlLt r.price (some 0)) (sqlGt r.price (some 50000))))
        true false
  , location_flag :=
      caseWhen (sqlOr (sqlIsNull r.user_latitude) (sqlIsNull r.user_longitude)) true
        (caseWhen
          (sqlOr (sqlLt r.user_latitude (some (-90))) (sqlGt r.user_latitude (some 90))) true
          (caseWhen
            (sqlOr (sqlLt r.user_longitude (some (-180))) (sqlGt r.user_longitude (some 180)))
            true false))
  , transaction_year := r.ts.map (·.year)
  , transaction_month := r.ts.map (·.month)
  , transaction_day_of_week := r.ts.map (·.dayOfWeek)
  , transaction_hour := r.ts.map (·.hour)
  , day_type := caseWhen (sqlIn (r.ts.map (·.dayOfWeek)) [1, 7]) "weekend" "weekday" }

/-- The WHERE clause of `silver_travel_purchases`: identifier hard filter. -/
def purchaseIdOk (r : RawPurchase) : Bool :=
  r.id.isSome && r.user_id.isSome && r.destination_id.isSome

/-- The `silver_travel_purchases` table as a function of its bronze input. -/
def silver_travel_purchases (raws : List RawPurchase) : List SilverPurchase :=
  (raws.filter purchaseIdOk).map cleanPurchase

example :
    (cleanPurchase
      { id := some 1, ts := none, user_id := some 2, destination_id := some 3
      , clicked := none, purchased := some true, booking_date := none
      , price := some 100, user_latitude := some 100, user_longitude := some 0
      }).price_usd = some (roundTo 2 100) := rfl

example : roundTo 2 100 = 100 := by with_unfolding_all decide

example :
    (cleanPurchase
      { id := some 1, ts := none, user_id := some 2, destination_id := some 3
      , clicked := none, purchased := some true, booking_date := none
      , price := some (-5), user_latitude := some 100, user_longitude := some 0
      }).price_flag = true := by decide

/-- The `purchase_frequency_segment` CASE of `silver_users`, applied to the
raw (nullable) `last_6m_purchases` column. -/
def purchase_frequency_segment (n : Option ℤ) : String :=
  caseWhen (sqlGeInt n (some 10)) "high_frequency"
    (caseWhen (sqlGeInt n (some 3)) "medium_frequency" "low_frequency")

/-- The `price_segment` CASE of `silver_users`, applied to the raw
(nullable) `mean_price_7d` column. -/
def price_segment (q : Option ℚ) : String :=
  caseWhen (sqlGe q (some 500)) "premium"
    (caseWhen (sqlGe q (some 200)) "standard" "budget")

/-- A `silver_users` row. -/
structure SilverUser where
  user_id : Option ℕ
  last_updated_at : Option SqlTimestamp
  avg_price_7day : ℚ
  purchases_6month : ℤ
  user_latitude : Option ℚ
  user_longitude : Option ℚ
  frequency_segment : String
  spending_segment : String
  deriving DecidableEq, Repr

/-- The SELECT list of `silver_users` applied to one bronze row
(`frequency_segment` embeds the `purchase_frequency_segment` column and
`spending_segment` the `price_segment` column). -/
def cleanUser (r : RawUserFeatures) : SilverUser :=
  { user_id := r.user_id
  , last_updated_at := r.ts
  , avg_price_7day := roundTo 2 (coalesce r.mean_price_7d 0)
  , purchases_6month := coalesce r.last_6m_purchases 0
  , user_latitude :=
      caseWhen
        (sqlOr (sqlIsNull r.user_latitude)
          (sqlOr (sqlLt r.user_latitude (some (-90))) (sqlGt r.user_latitude (some 90))))
        none (roundOpt 6 r.user_latitude)
  , user_longitude :=
      caseWhen
        (sqlOr (sqlIsNull r.user_longitude)
          (sqlOr (sqlLt r.user_longitude (some (-180))) (sqlGt r.user_longitude (some 180))))
        none (roundOpt 6 r.user_longitude)
  , frequency_segment := purchase_frequency_segment r.last_6m_purchases
  , spending_segment := price_segment r.mean_price_7d }

/-- The WHERE clause of `silver_users`. -/
def userIdOk (r : RawUserFeatures) : Bool := r.user_id.isSome

/-- The `silver_users` table as a function of its bronze input. -/
def silver_users (raws : List RawUserFeatures) : List SilverUser :=
  (raws.filter userIdOk).map cleanUser

/-! ### Silver destinations -/

/-- Spark `INITCAP`: lower-cases a string, then upper-cases the first
letter of each space-separated word. -/
def initcapAux : Bool → List Char → List Char
  | _, [] => []
  | atWordStart, c :: cs =>
    if c = ' ' then c :: initcapAux true cs
    else (if atWordStart then c.toUpper else c.toLower) :: initcapAux false cs

/-- Spark `INITCAP` on a string. -/
def initcap (s : String) : String := String.mk (initcapAux true s.data)

/-- A `silver_destinations` row. -/
structure SilverDestination where
  destination_id : Option ℕ
  destination_name : Option String
  latitude : Option ℚ
  longitude : Option ℚ
  hemisphere : Option String
  deriving DecidableEq, Repr

/-- The SELECT list of `silver_destinations` applied to one bronze row. -/
def cleanDestination (r : RawDestination) : SilverDestination :=
  { destination_id := r.destination_id
  , destination_name := r.destination_name.map (fun s => (initcap s).trim)
  , latitude :=
      caseWhen
        (sqlOr (sqlIsNull r.dest_latitude)
          (sqlOr (sqlLt r.dest_latitude (some (-90))) (sqlGt r.dest_latitude (some 90))))
        none (roundOpt 6 r.dest_latitude)
  , longitude :=
      caseWhen
        (sqlOr (sqlIsNull r.dest_longitude)
          (sqlOr (sqlLt r.dest_longitude (some (-180))) (sqlGt r.dest_longitude (some 180))))
        none (roundOpt 6 r.dest_longitude)
  , hemisphere :=
      caseWhen (sqlGe r.dest_latitude (some 0)) (some "Northern") (some "Southern") }

/-- The WHERE clause of `silver_destinations`. -/
def destIdOk (r : RawDestination) : Bool := r.destination_id.isSome

/-- The `silver_destinations` table as a function of its bronze input. -/
def silver_destinations (raws : List RawDestination) : List SilverDestination :=
  (raws.filter destIdOk).map cleanDestination

example : (cleanDestination
    { destination_id := some 7, destination_name := some "  paris", dest_latitude := none
    , dest_longitude := some 2 }).hemisphere = some "Southern" := by decide

example : purchase_frequency_segment (some 10) = "high_frequency" := by decide
example : purchase_frequency_segment none = "low_frequency" := by decide

/-! ## Gold layer: aggregation

Each gold table is a grouped aggregation; the builders below compute one
output row from the row list of its group, exactly mirroring the SELECT
expressions. -/

/-- `SUM(CASE WHEN b THEN 1 ELSE 0 END)` for a non-nullable boolean column. -/
def countIf {α : Type} (p : α → Bool) (l : List α) : ℤ := ((l.filter p).length : ℤ)

/-- `SUM(CASE WHEN c THEN 1 ELSE 0 END)` for a nullable boolean column:
NULL (unknown) falls to the ELSE 0 branch. -/
def countIfSql {α : Type} (c : α → SqlBool) (l : List α) : ℤ :=
  ((l.filter (fun x => decide (c x = .tt))).length : ℤ)

/-- SQL `NULLIF(x, y)`. -/
def nullifZ (x y : ℤ) : Option ℤ := if x = y then none else some x

/-- SQL `SUM` over a nullable column: NULL inputs are ignored; the sum of
an empty or all-NULL multiset is NULL. -/
def sqlSum (l : List (Option ℚ)) : Option ℚ :=
  let xs := l.reduceOption
  if xs.isEmpty then none else some xs.sum

/-- SQL `AVG` over a nullable column (NULL inputs ignored). -/
def sqlAvg (l : List (Option ℚ)) : Option ℚ :=
  let xs := l.reduceOption
  if xs.isEmpty then none else some (xs.sum / (xs.length : ℚ))

/-- SQL `MIN` over a nullable column. -/
def sqlMin (l : List (Option ℚ)) : Option ℚ := l.reduceOption.min?

/-- SQL `MAX` over a nullable column. -/
def sqlMax (l : List (Option ℚ)) : Option ℚ := l.reduceOption.max?

/-- `COUNT(DISTINCT x)` over a nullable column (NULLs not counted). -/
def countDistinct {α : Type} [DecidableEq α] (l : List (Option α)) : ℤ :=
  (l.reduceOption.dedup.length : ℤ)

/-- `COUNT(x)` over a nullable column (NULLs not counted). -/
def countCol {α : Type} (l : List (Option α)) : ℤ := (l.reduceOption.length : ℤ)

/-- The shared shape of all four ratio metrics:
`ROUND(num * 100.0 / NULLIF(den, 0), 2)`. -/
def ratePct (num den : ℤ) : Option ℚ :=
  roundOpt 2 ((nullifZ den 0).map (fun d => (num : ℚ) * 100 / (d : ℚ)))

/-- `conversion_rate_pct` of `gold_daily_revenue_metrics` (also the
`conversion_rate_pct` of `gold_user_engagement` and the
`monthly_conversion_pct` of `gold_monthly_summary`): purchases over all
transactions. -/
def conversion_rate_pct (purchases total : ℤ) : Option ℚ := ratePct purchases total

/-- `click_to_purchase_rate_pct` of `gold_daily_revenue_metrics`:
purchases over clicks. -/
def click_to_purchase_rate_pct (purchases clicks : ℤ) : Option ℚ := ratePct purchases clicks

/-- `click_rate_pct` of `gold_destination_performance`: clicks over views. -/
def click_rate_pct (clicks views : ℤ) : Option ℚ := ratePct clicks views

/-- `booking_rate_pct` of `gold_destination_performance`: bookings over
clicks. -/
def booking_rate_pct (bookings clicks : ℤ) : Option ℚ := ratePct bookings clicks

/-- A `gold_daily_revenue_metrics` row (the group-key columns
`report_date`, `transaction_year`, `transaction_month` and `day_type` are
the constants of the group and carry no logic). -/
structure GoldDailyRow where
  total_transactions : ℤ
  total_clicks : ℤ
  total_purchases : ℤ
  conv_rate : Option ℚ
  click_to_purchase : Option ℚ
  total_revenue_usd : Option ℚ
  avg_transaction_value_usd : Option ℚ
  min_transaction_usd : Option ℚ
  max_transaction_usd : Option ℚ
  unique_users : ℤ
  unique_destinations : ℤ
  deriving DecidableEq, Repr

/-- The aggregate SELECT list of `gold_daily_revenue_metrics`, applied to
the rows of one `(report_date, year, month, day_type)` group. -/
def goldDailyRow (g : List SilverPurchase) : GoldDailyRow :=
  { total_transactions := (g.length : ℤ)
  , total_clicks := countIf (·.clicked) g
  , total_purchases := countIf (·.purchased) g
  , conv_rate := conversion_rate_pct (countIf (·.purchased) g) (g.length : ℤ)
  , click_to_purchase := click_to_purchase_rate_pct (countIf (·.purchased) g) (countIf (·.clicked) g)
  , total_revenue_usd := roundOpt 2 (sqlSum (g.map (fun t => if t.purchased then t.price_usd else some 0)))
  , avg_transaction_value_usd := roundOpt 2 (sqlAvg (g.map (fun t => if t.purchased then t.price_usd else none)))
  , min_transaction_usd := sqlMin (g.map (fun t => if t.purchased then t.price_usd else none))
  , max_transaction_usd := sqlMax (g.map (fun t => if t.purchased then t.price_usd else none))
  , unique_users := countDistinct (g.map (·.user_id))
  , unique_destinations := countDistinct (g.map (·.destination_id)) }

/-! ### Destination performance and user engagement (LEFT JOIN groups) -/

/-- The purchase side of one row of a LEFT JOIN against
`silver_travel_purchases`: all columns nullable, an unmatched dimension
row contributing a single all-NULL purchase side. -/
structure JoinedPurchase where
  transaction_id : Option ℕ
  user_id : Option ℕ
  destination_id : Option ℕ
  clicked : Option Bool
  purchased : Option Bool
  price_usd : Option ℚ
  deriving DecidableEq, Repr

/-- SQL join equality on nullable keys (NULL matches nothing). -/
def idEq (a b : Option ℕ) : Bool :=
  match a, b with
  | some x, some y => decide (x = y)
  | _, _ => false

/-- The purchase side of a joined row. -/
def toJoined (t : SilverPurchase) : JoinedPurchase :=
  { transaction_id := t.transaction_id
  , user_id := t.user_id
  , destination_id := t.destination_id
  , clicked := some t.clicked
  , purchased := some t.purchased
  , price_usd := t.price_usd }

/-- The all-NULL purchase side produced by an unmatched LEFT JOIN row. -/
def nullJoined : JoinedPurchase :=
  { transaction_id := none, user_id := none, destination_id := none
  , clicked := none, purchased := none, price_usd := none }

/-- The group of joined rows for one dimension row of a LEFT JOIN: its
matching purchases, or a single unmatched all-NULL row. -/
def leftJoinGroup (key : Option ℕ) (keyOf : SilverPurchase → Option ℕ)
    (ts : List SilverPurchase) : List JoinedPurchase :=
  let ms := ts.filter (fun t => idEq key (keyOf t))
  if ms.isEmpty then [nullJoined] else ms.map toJoined

/-- The `customer_tier` CASE of `gold_user_engagement`, applied to the
(nullable) purchased-spend sum of the user's group. -/
def customer_tier (spend : Option ℚ) : String :=
  caseWhen (sqlGe spend (some 5000)) "platinum"
    (caseWhen (sqlGe spend (some 2000)) "gold"
      (caseWhen (sqlGe spend (some 500)) "silver" "bronze"))

/-- A `gold_destination_performance` row (dimension passthrough columns,
the `MIN`/`MAX` transaction timestamps and the two window ranks are
omitted: they carry no logic the claims touch). -/
structure GoldDestRow where
  total_views : ℤ
  total_clicks : ℤ
  total_bookings : ℤ
  click_rate : Option ℚ
  booking_rate : Option ℚ
  total_revenue_usd : Option ℚ
  avg_booking_value_usd : Option ℚ
  unique_visitors : ℤ
  unique_buyers : ℤ
  deriving DecidableEq, Repr

/-- The aggregate SELECT list of `gold_destination_performance` for one
destination`s joined group. -/
def goldDestRow (d : SilverDestination) (ts : List SilverPurchase) : GoldDestRow :=
  let g := leftJoinGroup d.destination_id (·.destination_id) ts
  { total_views := (g.length : ℤ)
  , total_clicks := countIfSql (fun t => sqlOfBool t.clicked) g
  , total_bookings := countIfSql (fun t => sqlOfBool t.purchased) g
  , click_rate := click_rate_pct (countIfSql (fun t => sqlOfBool t.clicked) g) (g.length : ℤ)
  , booking_rate :=
      booking_rate_pct (countIfSql (fun t => sqlOfBool t.purchased) g)
        (countIfSql (fun t => sqlOfBool t.clicked) g)
  , total_revenue_usd :=
      roundOpt 2 (sqlSum (g.map (fun t => caseWhen (sqlOfBool t.purchased) t.price_usd (some 0))))
  , avg_booking_value_usd :=
      roundOpt 2 (sqlAvg (g.map (fun t => caseWhen (sqlOfBool t.purchased) t.price_usd none)))
  , unique_visitors := countDistinct (g.map (·.user_id))
  , unique_buyers := countDistinct (g.map (fun t => caseWhen (sqlOfBool t.purchased) t.user_id none)) }

/-- A `gold_user_engagement` row (user passthrough columns and the
activity timestamps are omitted; `tier` embeds the `customer_tier`
column). -/
structure GoldUserRow where
  total_interactions : ℤ
  total_clicks : ℤ
  total_purchases : ℤ
  conv_rate : Option ℚ
  total_spend_usd : Option ℚ
  avg_purchase_usd : Option ℚ
  destinations_viewed : ℤ
  destinations_booked : ℤ
  tier : String
  deriving DecidableEq, Repr

/-- The aggregate SELECT list of `gold_user_engagement` for one user`s
joined group. -/
def goldUserRow (u : SilverUser) (ts : List SilverPurchase) : GoldUserRow :=
  let g := leftJoinGroup u.user_id (·.user_id) ts
  { total_interactions := countCol (g.map (·.transaction_id))
  , total_clicks := countIfSql (fun t => sqlOfBool t.clicked) g
  , total_purchases := countIfSql (fun t => sqlOfBool t.purchased) g
  , conv_rate := conversion_rate_pct (countIfSql (fun t => sqlOfBool t.purchased) g) (g.length : ℤ)
  , total_spend_usd :=
      roundOpt 2 (sqlSum (g.map (fun t => caseWhen (sqlOfBool t.purchased) t.price_usd (some 0))))
  , avg_purchase_usd :=
      roundOpt 2 (sqlAvg (g.map (fun t => caseWhen (sqlOfBool t.purchased) t.price_usd none)))
  , destinations_viewed := countDistinct (g.map (·.destination_id))
  , destinations_booked := countDistinct (g.map (fun t => caseWhen (sqlOfBool t.purchased) t.destination_id none))
  , tier := customer_tier (sqlSum (g.map (fun t => caseWhen (sqlOfBool t.purchased) t.price_usd (some 0)))) }

/-! ### Monthly summary: grouping, ordering, and the LAG window -/

/-- Ascending order on a nullable integer (SQL ASC puts NULLs first). -/
def optLe (a b : Option ℤ) : Bool :=
  match a, b with
  | none, _ => true
  | some _, none => false
  | some x, some y => decide (x ≤ y)

/-- `ORDER BY transaction_year, transaction_month` on group keys. -/
def keyLe (a b : Option ℤ × Option ℤ) : Bool :=
  if a.1 = b.1 then optLe a.2 b.2 else optLe a.1 b.1

/-- Insert a key into a `keyLe`-sorted list. -/
def insertKey (k : Option ℤ × Option ℤ) :
    List (Option ℤ × Option ℤ) → List (Option ℤ × Option ℤ)
  | [] => [k]
  | x :: xs => if keyLe k x then k :: x :: xs else x :: insertKey k xs

/-- Insertion sort by `keyLe`. -/
def sortKeys : List (Option ℤ × Option ℤ) → List (Option ℤ × Option ℤ)
  | [] => []
  | x :: xs => insertKey x (sortKeys xs)

/-- The distinct `(transaction_year, transaction_month)` group keys of a
purchase relation, in `ORDER BY` order (GROUP BY treats NULL keys as
equal, as SQL does). -/
def monthKeys (ps : List SilverPurchase)  : List (Option ℤ × Option ℤ) :=
  sortKeys ((ps.map (fun p => (p.transaction_year, p.transaction_month))).dedup)

/-- A `gold_monthly_summary` row. -/
structure GoldMonthlyRow where
  transaction_year : Option ℤ
  transaction_month : Option ℤ
  total_transactions : ℤ
  total_bookings : ℤ
  monthly_revenue_usd : Option ℚ
  avg_booking_value_usd : Option ℚ
  active_users : ℤ
  destinations_in_demand : ℤ
  monthly_conversion_pct : Option ℚ
  prev_month_revenue : Option ℚ
  deriving DecidableEq, Repr

/-- The aggregate SELECT list of `gold_monthly_summary` for one
`(year, month)` group, before the LAG window is applied. -/
def monthlyRow (ps : List SilverPurchase) (k : Option ℤ × Option ℤ) : GoldMonthlyRow :=
  let g := ps.filter (fun p => decide ((p.transaction_year, p.transaction_month) = k))
  { transaction_year := k.1
  , transaction_month := k.2
  , total_transactions := (g.length : ℤ)
  , total_bookings := countIf (·.purchased) g
  , monthly_revenue_usd := roundOpt 2 (sqlSum (g.map (fun t => if t.purchased then t.price_usd else some 0)))
  , avg_booking_value_usd := roundOpt 2 (sqlAvg (g.map (fun t => if t.purchased then t.price_usd else none)))
  , active_users := countDistinct (g.map (·.user_id))
  , destinations_in_demand := countDistinct (g.map (·.destination_id))
  , monthly_conversion_pct := conversion_rate_pct (countIf (·.purchased) g) (g.length : ℤ)
  , prev_month_revenue := none }

/-- `LAG(monthly_revenue_usd) OVER (ORDER BY year, month)`: each row
receives the accumulator (the previous row`s revenue in window order, or
NULL for the first row). -/
def lagRevenue (prev : Option ℚ) : List GoldMonthlyRow → List GoldMonthlyRow
  | [] => []
  | r :: rs => { r with prev_month_revenue := prev } :: lagRevenue r.monthly_revenue_usd rs

/-- The `gold_monthly_summary` table as a function of its silver input. -/
def gold_monthly_summary (ps : List SilverPurchase) : List GoldMonthlyRow :=
  lagRevenue none ((monthKeys ps).map (monthlyRow ps))

/-! ## Quality auditor

The data-quality notebook is a straight-line script over the warehouse:
it reads each table, appends `CheckResult`s to a growing list, persists
the list as `dq_audit_log`, and finally raises iff any result has FAIL
severity. The warehouse and the clock are abstracted into `DQEnv`;
a query that raises is an `Except.error`. -/

/-- Severity of one quality-check result. -/
inductive Severity where
  | pass
  | warn
  | fail
  deriving DecidableEq, Repr

/-- One row appended to `dq_results` (the `expected`/`actual` message
strings carry no logic and are omitted). -/
structure CheckResult where
  check : String
  table : String
  layer : String
  status : Severity
  deriving DecidableEq, Repr

/-- The warehouse state and clock a data-quality run sees. A query on a
missing or unreadable table is an `Except.error`. `readMaxTs` returns the
`MAX` of the freshness column in hours (`none` for an empty table), and
`nowHours` is `datetime.now()` on the same scale. -/
structure DQEnv where
  readCount : String → Except String ℕ
  readMaxTs : String → Except String (Option ℚ)
  orphanUsers : Except String ℕ
  orphanDests : Except String ℕ
  negPrices : Except String ℕ
  invalidConv : Except String ℕ
  nowHours : ℚ

/-- The fixed table list of the record-count loop. -/
def dqTables : List (String × String) :=
  [ ("bronze_travel_purchases", "bronze")
  , ("bronze_user_features", "bronze")
  , ("bronze_destinations", "bronze")
  , ("silver_travel_purchases", "silver")
  , ("silver_users", "silver")
  , ("silver_destinations", "silver")
  , ("gold_daily_revenue_metrics", "gold")
  , ("gold_destination_performance", "gold")
  , ("gold_user_engagement", "gold")
  , ("gold_monthly_summary", "gold") ]

/-- The record-count loop: a readable table PASSes iff its count is
positive; a table whose read raises is caught and recorded as FAIL. -/
def recordCountChecks (env : DQEnv) : List CheckResult :=
  dqTables.map (fun tl =>
    match env.readCount tl.1 with
    | .ok n => { check := "record_count", table := tl.1, layer := tl.2
               , status := if n > 0 then .pass else .fail }
    | .error _ => { check := "record_count", table := tl.1, layer := tl.2, status := .fail })

/-- The two referential-integrity queries; they run outside any handler,
so a raising query aborts the whole run. -/
def refIntegrityChecks (env : DQEnv) : Except String (List CheckResult) := do
  let orphanU ← env.orphanUsers
  let orphanD ← env.orphanDests
  pure
    [ { check := "referential_integrity", table := "silver_travel_purchases -> silver_users"
      , layer := "silver", status := if orphanU = 0 then .pass else .warn }
    , { check := "referential_integrity", table := "silver_travel_purchases -> silver_destinations"
      , layer := "silver", status := if orphanD = 0 then .pass else .warn } ]

/-- The fixed table list of the freshness loop. -/
def freshnessTables : List String :=
  ["bronze_travel_purchases", "silver_travel_purchases", "gold_daily_revenue_metrics"]

/-- The layer string the freshness loop derives from a table name. -/
def layerOf (t : String) : String := (t.splitOn "_").headD ""

/-- The freshness loop: an empty table is infinitely stale (WARN); a
fresh table PASSes. A raising query is caught but the handler only
prints: NOTHING is appended for that table. -/
def freshnessChecks (env : DQEnv) : List CheckResult :=
  freshnessTables.filterMap (fun t =>
    match env.readMaxTs t with
    | .error _ => none
    | .ok none => some { check := "data_freshness", table := t, layer := layerOf t, status := .warn }
    | .ok (some ts) =>
        some { check := "data_freshness", table := t, layer := layerOf t
             , status := if env.nowHours - ts < 24 then .pass else .warn })

/-- The two business-rule queries; they also run outside any handler. -/
def businessRuleChecks (env : DQEnv) : Except String (List CheckResult) := do
  let neg ← env.negPrices
  let inv ← env.invalidConv
  pure
    [ { check := "business_rule", table := "silver_travel_purchases", layer := "silver"
      , status := if neg = 0 then .pass else .fail }
    , { check := "business_rule", table := "gold_daily_revenue_metrics", layer := "gold"
      , status := if inv = 0 then .pass else .fail } ]

/-- `fail_count` of the summary step. -/
def failCount (rs : List CheckResult) : ℕ := rs.countP (fun r => decide (r.status = .fail))

/-- The summary step over the completed checklist: the audit log is
persisted as the full result list, then the run raises iff
`fail_count > 0`. -/
structure DQSummary where
  audit_log : List CheckResult
  raised : Bool
  deriving DecidableEq, Repr

/-- The summary step of the data-quality notebook. -/
def dqSummary (rs : List CheckResult) : DQSummary :=
  { audit_log := rs, raised := decide (failCount rs > 0) }

/-- The whole data-quality notebook: runs the four check sections in
order, then the summary step. An uncaught query error aborts the run
(`Except.error`) before any audit log is written. -/
def runDQ (env : DQEnv) : Except String DQSummary := do
  let rc := recordCountChecks env
  let ri ← refIntegrityChecks env
  let fr := freshnessChecks env
  let br ← businessRuleChecks env
  pure (dqSummary (rc ++ ri ++ fr ++ br))

/-! ## Concrete records used by witnesses and counterexamples -/

/-- A fully valid bronze purchase row. -/
def rawP1 : RawPurchase :=
  { id := some 1, ts := some ⟨2024, 1, 2, 10⟩, user_id := some 11, destination_id := some 21
  , clicked := some true, purchased := some true, booking_date := some 0
  , price := some 120, user_latitude := some 45, user_longitude := some 9 }

/-- A bronze purchase row with an out-of-range user latitude. -/
def rawP2 : RawPurchase :=
  { id := some 2, ts := none, user_id := some 12, destination_id := some 22
  , clicked := some false, purchased := some false, booking_date := none
  , price := some 10, user_latitude := some 100, user_longitude := some 0 }

/-- A bronze purchase row with a NULL user id (fails the hard filter). -/
def rawPBadId : RawPurchase :=
  { id := some 3, ts := none, user_id := none, destination_id := some 23
  , clicked := none, purchased := none, booking_date := none
  , price := some 10, user_latitude := some 1, user_longitude := some 1 }

/-- A valid bronze user-features row. -/
def rawU1 : RawUserFeatures :=
  { user_id := some 11, ts := none, mean_price_7d := some 250
  , last_6m_purchases := some 4, user_latitude := some 45, user_longitude := some 9 }

/-- A bronze user-features row with a NULL user id. -/
def rawUBadId : RawUserFeatures :=
  { user_id := none, ts := none, mean_price_7d := some 250
  , last_6m_purchases := some 4, user_latitude := some 45, user_longitude := some 9 }

/-- A valid bronze destination row. -/
def rawD1 : RawDestination :=
  { destination_id := some 21, destination_name := some "paris"
  , dest_latitude := some 48, dest_longitude := some 2 }

/-- A bronze destination row with a NULL destination id. -/
def rawDBadId : RawDestination :=
  { destination_id := none, destination_name := some "x"
  , dest_latitude := some 1, dest_longitude := some 1 }

/-- A bronze destination row with a NULL latitude but a valid id. -/
def rawDNullLat : RawDestination :=
  { destination_id := some 5, destination_name := some "oslo"
  , dest_latitude := none, dest_longitude := some 10 }

/-- A silver purchase row in month `(y, m)`, with no click, purchase or
price (used to exercise the monthly window). -/
def silverRowYM (y m : ℤ) : SilverPurchase :=
  { transaction_id := some 1, transaction_timestamp := some ⟨y, m, 2, 10⟩
  , user_id := some 11, destination_id := some 21
  , clicked := false, purchased := false, booking_date := none
  , price_usd := none, user_latitude := none, user_longitude := none
  , price_flag := true, location_flag := true
  , transaction_year := some y, transaction_month := some m
  , transaction_day_of_week := some 2, transaction_hour := some 10
  , day_type := "weekday" }

/-- A warehouse in which `gold_daily_revenue_metrics` is unreadable:
its record-count read and its freshness read both raise. Every other
table is readable with five rows and an empty freshness column. -/
def dqEnvMissingGold : DQEnv :=
  { readCount := fun t => if t = "gold_daily_revenue_metrics" then .error "missing" else .ok 5
  , readMaxTs := fun t => if t = "gold_daily_revenue_metrics" then .error "missing" else .ok none
  , orphanUsers := .ok 0
  , orphanDests := .ok 0
  , negPrices := .ok 0
  , invalidConv := .ok 0
  , nowHours := 0 }

/-! ## Per-row lemmas about the purchase cleaning -/

/-- The `_price_invalid` flag is set exactly for NULL, negative or
above-50000 prices. -/
theorem priceFlag_iff (r : RawPurchase) :
    (cleanPurchase r).price_flag = true ↔
      r.price = none ∨ ∃ p, r.price = some p ∧ (p < 0 ∨ 50000 < p) := by
  rcases hpr : r.price with _ | p
  · simp [cleanPurchase, caseWhen, sqlOr, sqlIsNull, hpr]
  · by_cases h0 : p < 0 <;> by_cases h5 : (50000 : ℚ) < p <;>
      simp [cleanPurchase, caseWhen, sqlOr, sqlIsNull, sqlLt, sqlGt, liftCmp, hpr, h0, h5]

/-- A flagged price is output as NULL. -/
theorem priceUsd_of_flag (r : RawPurchase) (h : (cleanPurchase r).price_flag = true) :
    (cleanPurchase r).price_usd = none := by
  rcases hpr : r.price with _ | p
  · simp [cleanPurchase, caseWhen, sqlOr, sqlIsNull, hpr]
  · by_cases h0 : p < 0
    · simp [cleanPurchase, caseWhen, sqlOr, sqlIsNull, sqlLt, sqlGt, liftCmp, hpr, h0]
    · by_cases h5 : (50000 : ℚ) < p
      · simp [cleanPurchase, caseWhen, sqlOr, sqlIsNull, sqlLt, sqlGt, liftCmp, hpr, h0, h5]
      · exfalso
        rcases (priceFlag_iff r).mp h with h' | ⟨q, hq, hcase⟩
        · simp [hpr] at h'
        · rw [hpr] at hq
          injection hq with hq
          subst hq
          rcases hcase with hdis | hdis
          exacts [h0 hdis, h5 hdis]

/-- An unflagged price is output rounded to two decimal places. -/
theorem priceUsd_of_not_flag (r : RawPurchase) (h : (cleanPurchase r).price_flag = false) :
    ∃ p, r.price = some p ∧ (cleanPurchase r).price_usd = some (roundTo 2 p) := by
  rcases hpr : r.price with _ | p
  · exfalso
    have := (priceFlag_iff r).mpr (Or.inl hpr)
    rw [h] at this
    exact Bool.false_ne_true this
  · have h0 : ¬ p < 0 := by
      intro hc
      have := (priceFlag_iff r).mpr (Or.inr ⟨p, hpr, Or.inl hc⟩)
      rw [h] at this
      exact Bool.false_ne_true this
    have h5 : ¬ (50000 : ℚ) < p := by
      intro hc
      have := (priceFlag_iff r).mpr (Or.inr ⟨p, hpr, Or.inr hc⟩)
      rw [h] at this
      exact Bool.false_ne_true this
    exact ⟨p, rfl, by
      simp [cleanPurchase, caseWhen, sqlOr, sqlIsNull, sqlLt, sqlGt, liftCmp, hpr, h0, h5, roundOpt]⟩

/-- The `_location_invalid` flag is set exactly for NULL or out-of-range
coordinates. -/
theorem locationFlag_iff (r : RawPurchase) :
    (cleanPurchase r).location_flag = true ↔
      r.user_latitude = none ∨ r.user_longitude = none ∨
        (∃ la, r.user_latitude = some la ∧ (la < -90 ∨ 90 < la)) ∨
        (∃ lo, r.user_longitude = some lo ∧ (lo < -180 ∨ 180 < lo)) := by
  rcases hla : r.user_latitude with _ | la <;> rcases hlo : r.user_longitude with _ | lo <;>
    simp [cleanPurchase, caseWhen, sqlOr, sqlIsNull, sqlLt, sqlGt, liftCmp, hla, hlo]
  by_cases h1 : la < -90 <;> by_cases h2 : (90 : ℚ) < la <;>
    by_cases h3 : lo < -180 <;> by_cases h4 : (180 : ℚ) < lo <;>
      simp [caseWhen, sqlOr, h1, h2, h3, h4]

/-- Claim C1: for purchase records passing the identifier hard filter, the
price-invalid flag is true iff the original price is NULL, negative or
above 50000; in exactly those cases the output price is NULL, otherwise
it is the original price rounded to two decimal places. -/
theorem c1_price_validation (raws : List RawPurchase) (c : SilverPurchase)
    (hc : c ∈ silver_travel_purchases raws) :
    ∃ raw ∈ raws, c = cleanPurchase raw ∧
      (c.price_flag = true ↔ raw.price = none ∨ ∃ p, raw.price = some p ∧ (p < 0 ∨ 50000 < p)) ∧
      (c.price_flag = true → c.price_usd = none) ∧
      (c.price_flag = false → ∃ p, raw.price = some p ∧ c.price_usd = some (roundTo 2 p)) := by
  unfold silver_travel_purchases at hc
  rcases List.mem_map.mp hc with ⟨raw, hraw, rfl⟩
  have hmem := (List.mem_filter.mp hraw).1
  exact ⟨raw, hmem, rfl, priceFlag_iff raw, priceUsd_of_flag raw, priceUsd_of_not_flag raw⟩

/-- Witness for C1 at the concrete valid row `rawP1`. -/
theorem c1_price_validation_witness :
    cleanPurchase rawP1 ∈ silver_travel_purchases [rawP1] ∧
    ∃ raw ∈ [rawP1], cleanPurchase rawP1 = cleanPurchase raw ∧
      ((cleanPurchase rawP1).price_flag = true ↔
        raw.price = none ∨ ∃ p, raw.price = some p ∧ (p < 0 ∨ 50000 < p)) ∧
      ((cleanPurchase rawP1).price_flag = true → (cleanPurchase rawP1).price_usd = none) ∧
      ((cleanPurchase rawP1).price_flag = false →
        ∃ p, raw.price = some p ∧ (cleanPurchase rawP1).price_usd = some (roundTo 2 p)) := by
  have hm : cleanPurchase rawP1 ∈ silver_travel_purchases [rawP1] :=
    List.mem_singleton_self _
  exact ⟨hm, c1_price_validation [rawP1] (cleanPurchase rawP1) hm⟩

/-- Counterexample to C2 as stated: `rawP2` passes the hard filter and has
latitude 100 (out of range), so its location flag is set, yet both
coordinates are passed through unchanged rather than nulled. -/
theorem c2_counterexample :
    cleanPurchase rawP2 ∈ silver_travel_purchases [rawP2] ∧
    (cleanPurchase rawP2).location_flag = true ∧
    (cleanPurchase rawP2).user_latitude = some 100 ∧
    (cleanPurchase rawP2).user_longitude = some 0 := by
  refine ⟨List.mem_singleton_self _, ?_, ?_, ?_⟩ <;> decide

/-- Claim C2 (amended): for every cleaned purchase record, the
location-invalid flag is true iff a raw coordinate is NULL or out of
range (latitude outside `[-90, 90]`, longitude outside `[-180, 180]`),
and both output coordinates are the raw values passed through unchanged
(they are NOT nulled when invalid). -/
theorem c2_location_validation (raws : List RawPurchase) (c : SilverPurchase)
    (hc : c ∈ silver_travel_purchases raws) :
    ∃ raw ∈ raws, c = cleanPurchase raw ∧
      (c.location_flag = true ↔
        raw.user_latitude = none ∨ raw.user_longitude = none ∨
          (∃ la, raw.user_latitude = some la ∧ (la < -90 ∨ 90 < la)) ∨
          (∃ lo, raw.user_longitude = some lo ∧ (lo < -180 ∨ 180 < lo))) ∧
      c.user_latitude = raw.user_latitude ∧
      c.user_longitude = raw.user_longitude := by
  unfold silver_travel_purchases at hc
  rcases List.mem_map.mp hc with ⟨raw, hraw, rfl⟩
  have hmem := (List.mem_filter.mp hraw).1
  exact ⟨raw, hmem, rfl, locationFlag_iff raw, rfl, rfl⟩

/-- Witness for the amended C2 at the concrete row `rawP2`. -/
theorem c2_location_validation_witness :
    cleanPurchase rawP2 ∈ silver_travel_purchases [rawP2] ∧
    ∃ raw ∈ [rawP2], cleanPurchase rawP2 = cleanPurchase raw ∧
      ((cleanPurchase rawP2).location_flag = true ↔
        raw.user_latitude = none ∨ raw.user_longitude = none ∨
          (∃ la, raw.user_latitude = some la ∧ (la < -90 ∨ 90 < la)) ∨
          (∃ lo, raw.user_longitude = some lo ∧ (lo < -180 ∨ 180 < lo))) ∧
      (cleanPurchase rawP2).user_latitude = raw.user_latitude ∧
      (cleanPurchase rawP2).user_longitude = raw.user_longitude := by
  have hm : cleanPurchase rawP2 ∈ silver_travel_purchases [rawP2] :=
    List.mem_singleton_self _
  exact ⟨hm, c2_location_validation [rawP2] (cleanPurchase rawP2) hm⟩

/-- Claim C3: all three threshold classifiers are boundary-inclusive at
each threshold and fall to their default label below all thresholds. -/
theorem c3_threshold_boundaries :
    purchase_frequency_segment (some 10) = "high_frequency" ∧
    purchase_frequency_segment (some 3) = "medium_frequency" ∧
    (∀ n : ℤ, n < 3 → purchase_frequency_segment (some n) = "low_frequency") ∧
    price_segment (some 500) = "premium" ∧
    price_segment (some 200) = "standard" ∧
    (∀ q : ℚ, q < 200 → price_segment (some q) = "budget") ∧
    customer_tier (some 5000) = "platinum" ∧
    customer_tier (some 2000) = "gold" ∧
    customer_tier (some 500) = "silver" ∧
    (∀ q : ℚ, q < 500 → customer_tier (some q) = "bronze") := by
  refine ⟨by decide, by decide, ?_, by decide, by decide, ?_, by decide, by decide, by decide, ?_⟩
  · intro n hn
    have h10 : ¬ (10 : ℤ) ≤ n := by omega
    have h3 : ¬ (3 : ℤ) ≤ n := by omega
    simp [purchase_frequency_segment, caseWhen, sqlGeInt, liftCmp, h10, h3]
  · intro q hq
    have h500 : ¬ (500 : ℚ) ≤ q := by linarith
    have h200 : ¬ (200 : ℚ) ≤ q := by linarith
    simp [price_segment, caseWhen, sqlGe, liftCmp, h500, h200]
  · intro q hq
    have h5000 : ¬ (5000 : ℚ) ≤ q := by linarith
    have h2000 : ¬ (2000 : ℚ) ≤ q := by linarith
    have h500 : ¬ (500 : ℚ) ≤ q := by linarith
    simp [customer_tier, caseWhen, sqlGe, liftCmp, h5000, h2000, h500]

/-- Witness for C3 below all thresholds. -/
theorem c3_threshold_boundaries_witness :
    purchase_frequency_segment (some 2) = "low_frequency" ∧
    price_segment (some 199) = "budget" ∧
    customer_tier (some 499) = "bronze" :=
  ⟨c3_threshold_boundaries.2.2.1 2 (by decide),
   c3_threshold_boundaries.2.2.2.2.2.1 199 (by decide),
   c3_threshold_boundaries.2.2.2.2.2.2.2.2.2 499 (by decide)⟩

/-- Claim C4: every ratio metric is NULL whenever its denominator is
zero, both at the expression level and inside the daily and destination
aggregation rows. -/
theorem c4_zero_denominator_null :
    (∀ p : ℤ, conversion_rate_pct p 0 = none) ∧
    (∀ p : ℤ, click_to_purchase_rate_pct p 0 = none) ∧
    (∀ cl : ℤ, click_rate_pct cl 0 = none) ∧
    (∀ b : ℤ, booking_rate_pct b 0 = none) ∧
    (∀ g : List SilverPurchase,
      countIf (·.clicked) g = 0 → (goldDailyRow g).click_to_purchase = none) ∧
    (∀ (d : SilverDestination) (ts : List SilverPurchase),
      countIfSql (fun t => sqlOfBool t.clicked)
          (leftJoinGroup d.destination_id (·.destination_id) ts) = 0 →
        (goldDestRow d ts).booking_rate = none) := by
  have hz : ∀ n : ℤ, ratePct n 0 = none := by
    intro n
    simp [ratePct, nullifZ, roundOpt]
  refine ⟨fun p => hz p, fun p => hz p, fun cl => hz cl, fun b => hz b, ?_, ?_⟩
  · intro g hg
    simp [goldDailyRow, click_to_purchase_rate_pct, hg, hz]
  · intro d ts h
    simp only [goldDestRow, booking_rate_pct] at *
    rw [h, hz]

/-- Witness for C4 on empty groups (zero clicks). -/
theorem c4_zero_denominator_null_witness :
    countIf (·.clicked) ([] : List SilverPurchase) = 0 ∧
    (goldDailyRow []).click_to_purchase = none ∧
    countIfSql (fun t => sqlOfBool t.clicked)
        (leftJoinGroup (cleanDestination rawD1).destination_id (·.destination_id) []) = 0 ∧
    (goldDestRow (cleanDestination rawD1) []).booking_rate = none := by
  have h1 : countIf (·.clicked) ([] : List SilverPurchase) = 0 := by decide
  have h2 : countIfSql (fun t => sqlOfBool t.clicked)
      (leftJoinGroup (cleanDestination rawD1).destination_id (·.destination_id) []) = 0 := by
    decide
  exact ⟨h1, c4_zero_denominator_null.2.2.2.2.1 [] h1,
    h2, c4_zero_denominator_null.2.2.2.2.2 (cleanDestination rawD1) [] h2⟩

/-- Claim C5: the summary step persists the full result list as the audit
log and raises iff at least one completed check has FAIL severity. -/
theorem c5_overall_outcome (rs : List CheckResult) :
    ((dqSummary rs).raised = true ↔ ∃ r ∈ rs, r.status = Severity.fail) ∧
    (dqSummary rs).audit_log = rs := by
  constructor
  · simp [dqSummary, failCount, List.countP_pos_iff]
  · rfl

/-- Claim C6 (showing the code bug): with `gold_daily_revenue_metrics`
unreadable, the run completes and the record-count section records a FAIL
for that table, but the freshness section records NOTHING for it (its
handler only prints), even though the later business-rule checks still
execute. -/
theorem c6_errored_freshness_check_not_recorded :
    ((runDQ dqEnvMissingGold).toOption.map (fun s =>
      ( decide (∃ r ∈ s.audit_log, r.check = "record_count" ∧
          r.table = "gold_daily_revenue_metrics" ∧ r.status = Severity.fail)
      , decide (∃ r ∈ s.audit_log, r.check = "data_freshness" ∧
          r.table = "gold_daily_revenue_metrics")
      , decide (∃ r ∈ s.audit_log, r.check = "business_rule")
      , s.raised )))
      = some (true, false, true, true) := by decide

/-- `lagRevenue` preserves the number of rows. -/
theorem lagRevenue_length (prev : Option ℚ) (rows : List GoldMonthlyRow) :
    (lagRevenue prev rows).length = rows.length := by
  induction rows generalizing prev with
  | nil => rfl
  | cons r rs ih => simp [lagRevenue, ih]

/-- The first output row of `lagRevenue` carries the accumulator. -/
theorem lagRevenue_head (prev : Option ℚ) (rows : List GoldMonthlyRow)
    (r : GoldMonthlyRow) (h : (lagRevenue prev rows)[0]? = some r) :
    r.prev_month_revenue = prev := by
  cases rows with
  | nil => simp [lagRevenue] at h
  | cons a as =>
    simp [lagRevenue] at h
    rw [← h]

/-- Each row of `lagRevenue` keeps its own revenue value unchanged. -/
theorem lagRevenue_revenue (prev : Option ℚ) (rows : List GoldMonthlyRow) (i : ℕ) :
    ((lagRevenue prev rows)[i]?).map (·.monthly_revenue_usd)
      = (rows[i]?).map (·.monthly_revenue_usd) := by
  induction rows generalizing prev i with
  | nil => rfl
  | cons a as ih =>
    cases i with
    | zero => simp [lagRevenue]
    | succ j => simpa [lagRevenue] using ih a.monthly_revenue_usd j

/-- Successive `lagRevenue` outputs chain: each row`s lag value is the
previous output row`s revenue. -/
theorem lagRevenue_step (prev : Option ℚ) (rows : List GoldMonthlyRow) (i : ℕ)
    (r s : GoldMonthlyRow)
    (hr : (lagRevenue prev rows)[i]? = some r)
    (hs : (lagRevenue prev rows)[i + 1]? = some s) :
    s.prev_month_revenue = r.monthly_revenue_usd := by
  induction rows generalizing prev i with
  | nil => simp [lagRevenue] at hr
  | cons a as ih =>
    cases i with
    | zero =>
      simp [lagRevenue] at hr hs
      have hhead := lagRevenue_head a.monthly_revenue_usd as s hs
      rw [hhead, ← hr]
    | succ j =>
      simp [lagRevenue] at hr hs
      exact ih a.monthly_revenue_usd j hr hs

/-- Claim C7: in the monthly summary (ordered by year, month ascending),
the first period`s prior-revenue is NULL and every later period`s
prior-revenue equals the revenue of the immediately preceding period. -/
theorem c7_monthly_lag (ps : List SilverPurchase) :
    (0 < (gold_monthly_summary ps).length →
      ((gold_monthly_summary ps).map (·.prev_month_revenue))[0]? = some none) ∧
    (∀ i : ℕ, i + 1 < (gold_monthly_summary ps).length →
      ((gold_monthly_summary ps).map (·.prev_month_revenue))[i + 1]?
        = ((gold_monthly_summary ps).map (·.monthly_revenue_usd))[i]?) := by
  constructor
  · intro hlen
    have h0 := List.getElem?_eq_getElem hlen
    have hprev := lagRevenue_head none ((monthKeys ps).map (monthlyRow ps)) _ h0
    simp [List.getElem?_map, h0, hprev]
  · intro i hi1
    have hi : i < (gold_monthly_summary ps).length := Nat.lt_of_succ_lt hi1
    have hr := List.getElem?_eq_getElem hi
    have hs := List.getElem?_eq_getElem hi1
    have hstep :=
      lagRevenue_step none ((monthKeys ps).map (monthlyRow ps)) i _ _ hr hs
    simp [List.getElem?_map, hr, hs, hstep]

/-- The two-month purchase list used by the C7 witness. -/
def psTwoMonths : List SilverPurchase := [silverRowYM 2024 1, silverRowYM 2024 2]

/-- Witness for C7 on a concrete two-month history. -/
theorem c7_monthly_lag_witness :
    0 < (gold_monthly_summary psTwoMonths).length ∧
    ((gold_monthly_summary psTwoMonths).map (·.prev_month_revenue))[0]? = some none ∧
    0 + 1 < (gold_monthly_summary psTwoMonths).length ∧
    ((gold_monthly_summary psTwoMonths).map (·.prev_month_revenue))[0 + 1]?
      = ((gold_monthly_summary psTwoMonths).map (·.monthly_revenue_usd))[0]? := by
  have h1 : 0 < (gold_monthly_summary psTwoMonths).length := by decide
  have h2 : 0 + 1 < (gold_monthly_summary psTwoMonths).length := by decide
  exact ⟨h1, (c7_monthly_lag psTwoMonths).1 h1, h2, (c7_monthly_lag psTwoMonths).2 0 h2⟩

/-- Counterexample to C8 as stated: zero purchases out of zero total
yields NULL, not 0. -/
theorem c8_counterexample :
    conversion_rate_pct 0 0 = none ∧ (none : Option ℚ) ≠ some 0 := by
  constructor
  · simp [conversion_rate_pct, ratePct, nullifZ, roundOpt]
  · simp

/-- Claim C8 (amended): 25 of 100 gives 25.0; 0 of 0 gives NULL (not an
error, not NaN, not 0); 50 of 50 gives 100.0. -/
theorem c8_conversion_rate_examples :
    conversion_rate_pct 25 100 = some 25 ∧
    conversion_rate_pct 0 0 = none ∧
    conversion_rate_pct 50 50 = some 100 := by
  refine ⟨?_, by simp [conversion_rate_pct, ratePct, nullifZ, roundOpt], ?_⟩ <;>
    with_unfolding_all decide

/-- Claim C9: each cleaning stage excludes exactly the rows whose required
identifiers are NULL (without flagging) and retains every other row;
every cleaned row has non-NULL identifier fields. -/
theorem c9_identifier_hard_filter (rp : List RawPurchase) (ru : List RawUserFeatures)
    (rd : List RawDestination) :
    (∀ r : RawPurchase, purchaseIdOk r = true ↔
      r.id ≠ none ∧ r.user_id ≠ none ∧ r.destination_id ≠ none) ∧
    (∀ c ∈ silver_travel_purchases rp,
      c.transaction_id ≠ none ∧ c.user_id ≠ none ∧ c.destination_id ≠ none) ∧
    (∀ r ∈ rp, purchaseIdOk r = true → cleanPurchase r ∈ silver_travel_purchases rp) ∧
    (silver_travel_purchases rp).length = (rp.filter purchaseIdOk).length ∧
    (∀ c ∈ silver_users ru, c.user_id ≠ none) ∧
    (∀ r ∈ ru, r.user_id ≠ none → cleanUser r ∈ silver_users ru) ∧
    (silver_users ru).length = (ru.filter userIdOk).length ∧
    (∀ c ∈ silver_destinations rd, c.destination_id ≠ none) ∧
    (∀ r ∈ rd, r.destination_id ≠ none → cleanDestination r ∈ silver_destinations rd) ∧
    (silver_destinations rd).length = (rd.filter destIdOk).length := by
  refine ⟨?_, ?_, ?_, ?_, ?_, ?_, ?_, ?_, ?_, ?_⟩
  · intro r
    simp [purchaseIdOk, Option.isSome_iff_ne_none, and_assoc]
  · intro c hc
    unfold silver_travel_purchases at hc
    rcases List.mem_map.mp hc with ⟨raw, hraw, rfl⟩
    have hok := (List.mem_filter.mp hraw).2
    simp only [purchaseIdOk, Bool.and_eq_true, Option.isSome_iff_ne_none, and_assoc] at hok
    simpa [cleanPurchase] using hok
  · intro r hr hok
    exact List.mem_map.mpr ⟨r, List.mem_filter.mpr ⟨hr, hok⟩, rfl⟩
  · simp [silver_travel_purchases]
  · intro c hc
    unfold silver_users at hc
    rcases List.mem_map.mp hc with ⟨raw, hraw, rfl⟩
    have hok := (List.mem_filter.mp hraw).2
    simp only [userIdOk, Option.isSome_iff_ne_none] at hok
    simpa [cleanUser] using hok
  · intro r hr hok
    refine List.mem_map.mpr ⟨r, List.mem_filter.mpr ⟨hr, ?_⟩, rfl⟩
    simpa [userIdOk, Option.isSome_iff_ne_none] using hok
  · simp [silver_users]
  · intro c hc
    unfold silver_destinations at hc
    rcases List.mem_map.mp hc with ⟨raw, hraw, rfl⟩
    have hok := (List.mem_filter.mp hraw).2
    simp only [destIdOk, Option.isSome_iff_ne_none] at hok
    simpa [cleanDestination] using hok
  · intro r hr hok
    refine List.mem_map.mpr ⟨r, List.mem_filter.mpr ⟨hr, ?_⟩, rfl⟩
    simpa [destIdOk, Option.isSome_iff_ne_none] using hok
  · simp [silver_destinations]

/-- Witness for C9: the valid rows of mixed valid/invalid inputs are
retained by all three cleaning stages. -/
theorem c9_identifier_hard_filter_witness :
    rawP1 ∈ [rawP1, rawPBadId] ∧ purchaseIdOk rawP1 = true ∧
    cleanPurchase rawP1 ∈ silver_travel_purchases [rawP1, rawPBadId] ∧
    rawU1 ∈ [rawU1, rawUBadId] ∧ rawU1.user_id ≠ none ∧
    cleanUser rawU1 ∈ silver_users [rawU1, rawUBadId] ∧
    rawD1 ∈ [rawD1, rawDBadId] ∧ rawD1.destination_id ≠ none ∧
    cleanDestination rawD1 ∈ silver_destinations [rawD1, rawDBadId] := by
  have hp : rawP1 ∈ [rawP1, rawPBadId] := List.mem_cons_self _ _
  have hu : rawU1 ∈ [rawU1, rawUBadId] := List.mem_cons_self _ _
  have hd : rawD1 ∈ [rawD1, rawDBadId] := List.mem_cons_self _ _
  have hc := c9_identifier_hard_filter [rawP1, rawPBadId] [rawU1, rawUBadId] [rawD1, rawDBadId]
  exact ⟨hp, by decide, hc.2.2.1 rawP1 hp (by decide),
    hu, by decide, hc.2.2.2.2.2.1 rawU1 hu (by decide),
    hd, by decide, hc.2.2.2.2.2.2.2.2.1 rawD1 hd (by decide)⟩

/-- Claim C10: a destination row with a non-NULL id and NULL raw latitude
is cleaned to hemisphere `Southern` (the ELSE branch of the non-null-safe
comparison), its cleaned latitude is NULL, and every cleaned destination
row carries a non-NULL hemisphere label. -/
theorem c10_null_latitude_hemisphere (r : RawDestination)
    (hid : r.destination_id ≠ none) (hlat : r.dest_latitude = none) :
    cleanDestination r ∈ silver_destinations [r] ∧
    (cleanDestination r).hemisphere = some "Southern" ∧
    (cleanDestination r).latitude = none ∧
    ∀ d : RawDestination, (cleanDestination d).hemisphere ≠ none := by
  refine ⟨?_, ?_, ?_, ?_⟩
  · have hok : destIdOk r = true := by
      simp [destIdOk, Option.isSome_iff_ne_none, hid]
    exact List.mem_map.mpr ⟨r, List.mem_filter.mpr ⟨List.mem_singleton_self _, hok⟩, rfl⟩
  · simp [cleanDestination, caseWhen, sqlGe, liftCmp, hlat]
  · simp [cleanDestination, caseWhen, sqlOr, sqlIsNull, hlat]
  · intro d
    rcases h : d.dest_latitude with _ | v
    · simp [cleanDestination, caseWhen, sqlGe, liftCmp, h]
    · by_cases hv : (0 : ℚ) ≤ v <;>
        simp [cleanDestination, caseWhen, sqlGe, liftCmp, h, hv]

/-- Witness for C10 at the concrete row `rawDNullLat`. -/
theorem c10_null_latitude_hemisphere_witness :
    rawDNullLat.destination_id ≠ none ∧ rawDNullLat.dest_latitude = none ∧
    (cleanDestination rawDNullLat ∈ silver_destinations [rawDNullLat] ∧
      (cleanDestination rawDNullLat).hemisphere = some "Southern" ∧
      (cleanDestination rawDNullLat).latitude = none ∧
      ∀ d : RawDestination, (cleanDestination d).hemisphere ≠ none) :=
  ⟨by decide, rfl, c10_null_latitude_hemisphere rawDNullLat (by decide) rfl⟩
